import Mathlib

/-!
Verification of the MSK topic configuration policy engine
(tflint-ruleset-kafka-config).

The development shallowly embeds the two rule files
`rules/msk_topic_config.go` and `rules/msk_topic_config_comments.go`.
Property values are literal strings (the external HCL parser resolves
expressions to literals before the engine runs), source positions are the
HCL 1-based line/column ranges, and each Go `validate*` function becomes a
pure Lean function from the topic's attribute index to the list of Issues
it emits, in emission order.  Fixes are the edit operations attached to
issues.  Functions whose Go counterpart can return a hard error
(expression decoding of the replication factor) return `Except`.
-/

/-- Source position: 1-based line and column, as in HCL ranges. -/
structure Pos where
  line : Nat
  column : Nat
deriving DecidableEq, Repr

/-- Source range; `stop` is the position immediately after the last
character, mirroring `hcl.Range.End`. -/
structure SrcRange where
  filename : String
  start : Pos
  stop : Pos
deriving DecidableEq, Repr

/-- One `key = value` entry of a topic's `config` attribute, with the
ranges of the key expression and of the value expression
(`hcl.KeyValuePair` with both sides decoded to literal strings). -/
structure KeyValuePair where
  key : String
  value : String
  keyRange : SrcRange
  valueRange : SrcRange
deriving DecidableEq, Repr

/-- The topic's `config` attribute: its own range, the start range of its
object expression (`config.Expr.StartRange()`, the insertion anchor used
by fixes), and the decoded key/value pairs in source order. -/
structure ConfigAttr where
  range : SrcRange
  exprStartRange : SrcRange
  pairs : List KeyValuePair
deriving DecidableEq, Repr

/-- An edit operation attached to an issue (`tflint.Fixer` calls). -/
inductive FixOp where
  | insertAfter (r : SrcRange) (text : String)
  | insertBefore (r : SrcRange) (text : String)
  | replaceText (r : SrcRange) (text : String)
  | remove (r : SrcRange)
deriving DecidableEq, Repr

/-- A diagnostic emitted through the runner: message, range, optional fix. -/
structure Issue where
  message : String
  range : SrcRange
  fix : Option FixOp
deriving DecidableEq, Repr

/-- A comment token of the lexed source file (`hclsyntax.Token` with
`Type = TokenComment`): its bytes and its range.  Single-line comments
include the trailing newline in `bytes`, so their range ends on the
following line. -/
structure CommentToken where
  bytes : String
  range : SrcRange
deriving DecidableEq, Repr

/-- A `kafka_topic` resource as the rule sees it: the resource definition
range, the range of the `name` attribute when present, the
`replication_factor` attribute when present (its range and the result of
decoding its expression to an int; `none` means the decode fails), and
the `config` attribute when present. -/
structure Topic where
  defRange : SrcRange
  nameRange : Option SrcRange
  replFactor : Option (SrcRange × Option Int)
  config : Option ConfigAttr
deriving DecidableEq, Repr

/-- Lookup in the config key map.  The Go code builds a map by iterating
`ExprMap()` in source order, so a duplicated key keeps the last pair. -/
def lookupConfigKey (pairs : List KeyValuePair) (k : String) : Option KeyValuePair :=
  pairs.reverse.find? (fun p => p.key == k)

/-- Digit accumulator for `go_atoi`: `none` as soon as a non-digit is hit. -/
def go_atoiDigits (cs : List Char) : Option Nat :=
  cs.foldl
    (fun acc c =>
      match acc with
      | none => none
      | some n => if c.isDigit then some (n * 10 + (c.toNat - 48)) else none)
    (some 0)

/-- Model of Go's `strconv.Atoi` on a 64-bit platform: optional sign, at
least one digit, all digits, and the value must fit in `int64`; every
error (syntax or range) is `none`, matching the code's `err != nil`
checks. -/
def go_atoi (s : String) : Option Int :=
  let cs := s.data
  let signAndDigits : Int × List Char :=
    match cs with
    | '-' :: rest => (-1, rest)
    | '+' :: rest => (1, rest)
    | _ => (1, cs)
  match signAndDigits.2 with
  | [] => none
  | ds =>
      match go_atoiDigits ds with
      | none => none
      | some n =>
          let v : Int := signAndDigits.1 * n
          if v < -(2 ^ 63) ∨ 2 ^ 63 - 1 < v then none else some v

/-- Whitespace recognized by Go's `strings.TrimSpace` (ASCII part). -/
def isGoSpace (c : Char) : Bool :=
  c == ' ' || c == '\t' || c == '\n' || c == '\r' || c == '\x0b' || c == '\x0c'

/-- Trim leading and trailing whitespace from a character list. -/
def trimChars (cs : List Char) : List Char :=
  ((cs.dropWhile isGoSpace).reverse.dropWhile isGoSpace).reverse

/-- Model of Go's `strings.TrimSpace`. -/
def goTrimSpace (s : String) : String :=
  ⟨trimChars s.data⟩

/-! ## Shared policy constants (`rules/msk_topic_config.go`) -/

def retentionTimeAttr : String := "retention.ms"
def millisInOneHour : Int := 60 * 60 * 1000
def millisInOneDay : Int := 24 * millisInOneHour
def tieredStorageThresholdInDays : Int := 3
def tieredStorageEnableAttr : String := "remote.storage.enable"
def tieredStorageEnabledValue : String := "true"
def localRetentionTimeAttr : String := "local.retention.ms"
def localRetentionTimeInDaysDefault : Int := 1

/-- Modelled from the spec: the month length constant used by the duration
formatter is not among the provided sources; the spec's example
"5,184,000,000 → 2 months" pins it to 30 days of milliseconds. -/
def millisInOneMonth : Int := 30 * millisInOneDay

/-- Modelled from the spec: the year length constant used by the duration
formatter is not among the provided sources; the spec's example
"31,536,000,000 → 1 year" pins it to 365 days of milliseconds. -/
def millisInOneYear : Int := 365 * millisInOneDay

def cleanupPolicyKey : String := "cleanup.policy"
def cleanupPolicyDelete : String := "delete"
def cleanupPolicyCompact : String := "compact"
def cleanupPolicyDefault : String := cleanupPolicyDelete
def compressionTypeKey : String := "compression.type"
def compressionTypeVal : String := "zstd"

namespace TopicConfig

/-! Embedding of the `MSKTopicConfigRule` check
(`rules/msk_topic_config.go`). -/

def replFactorFix : String := "replication_factor = 3"

def compressionTypeFix : String := "\"compression.type\" = \"zstd\""

def cleanupPolicyDefaultFix : String := "\"cleanup.policy\" = \"delete\""

def retentionTimeDefTemplate : String := "\"retention.ms\" = \"???\""

def enableTieredStorage : String := "\"remote.storage.enable\" = \"true\""

def localRetentionTimeFix : String :=
  "# keep data in hot storage for 1 day\n     \"local.retention.ms\" = \"86400000\""

def missingReplFactorMsg : String :=
  "missing replication_factor: it must be equal to \x273\x27"

def wrongReplFactorMsg : String :=
  "the replication_factor must be equal to \x273\x27"

def missingConfigMsg : String :=
  "missing config attribute: the topic configuration must be specified in a config attribute"

def missingCompressionMsg : String :=
  "missing compression.type: it must be equal to \x27zstd\x27"

def wrongCompressionMsg : String :=
  "the compression.type value must be equal to \x27zstd\x27"

def missingCleanupPolicyMsg : String :=
  "missing cleanup.policy: using default \x27delete\x27"

def invalidCleanupPolicyMsg (v : String) : String :=
  "invalid cleanup.policy: it must be one of [delete, compact], but currently is \x27"
    ++ v ++ "\x27"

def missingRetentionTimeMsg : String :=
  "retention.ms must be defined on a topic with cleanup policy delete"

def invalidRetentionTimeMsg : String :=
  "retention.ms must have a valid integer value expressed in milliseconds. Use -1 for infinite retention"

def tieredStorageEnableMsg : String :=
  "tiered storage must be enabled when retention time is longer than 3 days"

def missingLocalRetentionMsg : String :=
  "missing local.retention.ms when tiered storage is enabled: using default \x2786400000\x27"

def invalidLocalRetentionMsg : String :=
  "local.retention.ms must have a valid integer value expressed in milliseconds"

def tieredNotSupportedMsg (reason : String) : String :=
  "tiered storage is not supported for " ++ reason ++ ": disabling it..."

def localMisleadingMsg (reason : String) : String :=
  "defining local.retention.ms is misleading when tiered storage is disabled due to "
    ++ reason ++ ": removing it..."

def retentionMisleadingMsg (reason : String) : String :=
  "defining retention.ms is misleading for " ++ reason ++ ": removing it..."

/-- `reportMissingReplicationFactor`: without a `name` attribute there is
no insertion anchor, so the issue carries no fix; with one, the fix
inserts the default after the name. -/
def reportMissingReplicationFactor (topic : Topic) : List Issue :=
  match topic.nameRange with
  | none => [⟨missingReplFactorMsg, topic.defRange, none⟩]
  | some nr =>
      [⟨missingReplFactorMsg, topic.defRange,
        some (FixOp.insertAfter nr ("\n" ++ replFactorFix))⟩]

/-- `validateReplicationFactor`; a failing int decode of the attribute
expression aborts the check with an error. -/
def validateReplicationFactor (topic : Topic) : Except Unit (List Issue) :=
  match topic.replFactor with
  | none => .ok (reportMissingReplicationFactor topic)
  | some (_, none) => .error ()
  | some (r, some v) =>
      if v ≠ 3 then
        .ok [⟨wrongReplFactorMsg, r, some (FixOp.replaceText r replFactorFix)⟩]
      else .ok []

/-- `validateCompressionType`. -/
def validateCompressionType (config : ConfigAttr) : List Issue :=
  match lookupConfigKey config.pairs compressionTypeKey with
  | none =>
      [⟨missingCompressionMsg, config.range,
        some (FixOp.insertAfter config.exprStartRange ("\n" ++ compressionTypeFix))⟩]
  | some ctPair =>
      if ctPair.value ≠ compressionTypeVal then
        [⟨wrongCompressionMsg, ctPair.valueRange,
          some (FixOp.replaceText ctPair.valueRange "\"zstd\"")⟩]
      else []

/-- `getAndValidateCleanupPolicyValue`: returns the effective policy
string ("" when the configured value is outside the closed enumeration)
together with the issues it emits. -/
def getAndValidateCleanupPolicyValue (config : ConfigAttr) : String × List Issue :=
  match lookupConfigKey config.pairs cleanupPolicyKey with
  | none =>
      (cleanupPolicyDefault,
       [⟨missingCleanupPolicyMsg, config.range,
         some (FixOp.insertAfter config.exprStartRange ("\n" ++ cleanupPolicyDefaultFix))⟩])
  | some cpPair =>
      if cpPair.value = cleanupPolicyDelete ∨ cpPair.value = cleanupPolicyCompact then
        (cpPair.value, [])
      else
        ("", [⟨invalidCleanupPolicyMsg cpPair.value, cpPair.valueRange, none⟩])

/-- `isInfiniteRetention`: every negative value is the infinite sentinel. -/
def isInfiniteRetention (v : Int) : Bool :=
  decide (v < 0)

/-- `mustEnableTieredStorage`. -/
def mustEnableTieredStorage (retentionTime : Int) : Bool :=
  decide (tieredStorageThresholdInDays * millisInOneDay ≤ retentionTime)
    || isInfiniteRetention retentionTime

/-- `getAndValidateRetentionTime`: the parsed retention value (when
present and parseable) and the issues emitted on the way. -/
def getAndValidateRetentionTime (config : ConfigAttr) : Option Int × List Issue :=
  match lookupConfigKey config.pairs retentionTimeAttr with
  | none =>
      (none,
       [⟨missingRetentionTimeMsg, config.range,
         some (FixOp.insertAfter config.exprStartRange ("\n" ++ retentionTimeDefTemplate))⟩])
  | some retTimePair =>
      match go_atoi retTimePair.value with
      | none => (none, [⟨invalidRetentionTimeMsg, retTimePair.valueRange, none⟩])
      | some v => (some v, [])

/-- `validateTieredStorageEnabled`. -/
def validateTieredStorageEnabled (config : ConfigAttr) : List Issue :=
  match lookupConfigKey config.pairs tieredStorageEnableAttr with
  | none =>
      [⟨tieredStorageEnableMsg, config.range,
        some (FixOp.insertAfter config.exprStartRange ("\n" ++ enableTieredStorage))⟩]
  | some tsPair =>
      if tsPair.value ≠ tieredStorageEnabledValue then
        [⟨tieredStorageEnableMsg, tsPair.valueRange,
          some (FixOp.replaceText tsPair.valueRange "\"true\"")⟩]
      else []

/-- `validateLocalRetentionDefined`. -/
def validateLocalRetentionDefined (config : ConfigAttr) : List Issue :=
  match lookupConfigKey config.pairs localRetentionTimeAttr with
  | none =>
      [⟨missingLocalRetentionMsg, config.range,
        some (FixOp.insertAfter config.exprStartRange ("\n" ++ localRetentionTimeFix))⟩]
  | some lrPair =>
      match go_atoi lrPair.value with
      | none => [⟨invalidLocalRetentionMsg, lrPair.valueRange, none⟩]
      | some _ => []

/-- `validateLocalRetentionNotDefined`: the fix removes the whole
key/value span. -/
def validateLocalRetentionNotDefined (config : ConfigAttr) (reason : String) : List Issue :=
  match lookupConfigKey config.pairs localRetentionTimeAttr with
  | none => []
  | some lrPair =>
      [⟨localMisleadingMsg reason, lrPair.valueRange,
        some (FixOp.remove ⟨lrPair.keyRange.filename, lrPair.keyRange.start, lrPair.valueRange.stop⟩)⟩]

/-- `validateTieredStorageDisabled`: only a present pair whose value is
exactly "true" is an offender; the fix removes the whole key/value span. -/
def validateTieredStorageDisabled (config : ConfigAttr) (reason : String) : List Issue :=
  match lookupConfigKey config.pairs tieredStorageEnableAttr with
  | none => []
  | some tsPair =>
      if tsPair.value ≠ tieredStorageEnabledValue then []
      else
        [⟨tieredNotSupportedMsg reason, tsPair.valueRange,
          some (FixOp.remove ⟨tsPair.keyRange.filename, tsPair.keyRange.start, tsPair.valueRange.stop⟩)⟩]

/-- `validateRetentionTimeNotDefined`: the issue range is the key range
and the fix removes the whole key/value span. -/
def validateRetentionTimeNotDefined (config : ConfigAttr) (reason : String) : List Issue :=
  match lookupConfigKey config.pairs retentionTimeAttr with
  | none => []
  | some retTimePair =>
      [⟨retentionMisleadingMsg reason, retTimePair.keyRange,
        some (FixOp.remove ⟨retTimePair.keyRange.filename, retTimePair.keyRange.start,
          retTimePair.valueRange.stop⟩)⟩]

/-- `validateRetentionForDeletePolicy`: the delete-policy branch of the
retention/tiered-storage rule. -/
def validateRetentionForDeletePolicy (config : ConfigAttr) : List Issue :=
  match getAndValidateRetentionTime config with
  | (none, issues) => issues
  | (some retentionTime, issues) =>
      issues ++
        (if mustEnableTieredStorage retentionTime then
          validateTieredStorageEnabled config ++ validateLocalRetentionDefined config
        else
          validateTieredStorageDisabled config "less than 3 days retention"
            ++ validateLocalRetentionNotDefined config "less than 3 days retention")

/-- `validateCleanupPolicyConfig`: cleanup-policy resolution followed by
the policy-dependent branch (the Go `switch` matches neither case for the
empty invalid-policy result). -/
def validateCleanupPolicyConfig (config : ConfigAttr) : List Issue :=
  let res := getAndValidateCleanupPolicyValue config
  res.2 ++
    (if res.1 = cleanupPolicyDelete then
      validateRetentionForDeletePolicy config
    else if res.1 = cleanupPolicyCompact then
      validateTieredStorageDisabled config "compacted topic"
        ++ validateLocalRetentionNotDefined config "compacted topic"
        ++ validateRetentionTimeNotDefined config "compacted topic"
    else [])

/-- `determineTimeUnits` of `msk_topic_config.go`: integer division,
days/hours only (this rule's own comment check; distinct from the richer
formatter of the comments rule). -/
def determineTimeUnits (millis : Int) : Int × String :=
  let timeInDays := Int.tdiv millis millisInOneDay
  if 0 < timeInDays then
    (if timeInDays = 1 then (1, "day") else (timeInDays, "days"))
  else
    let timeInHours := Int.tdiv millis millisInOneHour
    if timeInHours = 1 then (1, "hour") else (timeInHours, "hours")

/-- `buildDurationComment` of `msk_topic_config.go` (retention.ms only,
with sentinel "-1" and base message "keep data"); unparseable values give
the empty message, silently. -/
def buildDurationComment (timePair : KeyValuePair) (infiniteVal : String) : String :=
  if timePair.value = infiniteVal then "# keep data forever"
  else
    match go_atoi timePair.value with
    | none => ""
    | some v =>
        let tu := determineTimeUnits v
        "# keep data for " ++ toString tu.1 ++ " " ++ tu.2

/-- `getExistingComment` of `msk_topic_config.go`: the first comment
token ending on the key's line. -/
def getExistingComment (pair : KeyValuePair) (comments : List CommentToken) : Option CommentToken :=
  comments.find? (fun c => c.range.stop.line == pair.keyRange.start.line)

def retentionCommentMissingMsg : String :=
  "retention.ms must have a comment with the human readable value: adding it ..."

def retentionCommentWrongMsg : String :=
  "retention.ms value doesn\x27t correspond to the human readable value in the comment: fixing it ..."

/-- `validateConfigValuesInComments` of `msk_topic_config.go`: human
readable comment reconciliation for `retention.ms` alone. -/
def validateConfigValuesInComments (config : ConfigAttr) (comments : List CommentToken) :
    List Issue :=
  match lookupConfigKey config.pairs retentionTimeAttr with
  | none => []
  | some retTimePair =>
      let msg := buildDurationComment retTimePair "-1"
      if msg = "" then []
      else
        match getExistingComment retTimePair comments with
        | none =>
            [⟨retentionCommentMissingMsg, retTimePair.keyRange,
              some (FixOp.insertBefore retTimePair.keyRange (msg ++ "\n"))⟩]
        | some comment =>
            if goTrimSpace comment.bytes ≠ msg then
              [⟨retentionCommentWrongMsg, comment.range,
                some (FixOp.replaceText comment.range (msg ++ "\n"))⟩]
            else []

/-- `validateTopicConfig`: the full per-topic pipeline of the rule, in
emission order. -/
def validateTopicConfig (topic : Topic) (comments : List CommentToken) :
    Except Unit (List Issue) := do
  let replIssues ← validateReplicationFactor topic
  match topic.config with
  | none => pure (replIssues ++ [⟨missingConfigMsg, topic.defRange, none⟩])
  | some config =>
      pure (replIssues
        ++ validateCompressionType config
        ++ validateCleanupPolicyConfig config
        ++ validateConfigValuesInComments config comments)

end TopicConfig

namespace Comments

/-! Embedding of the `MSKTopicConfigCommentsRule` check
(`rules/msk_topic_config_comments.go`). -/

/-- Per-property configuration record of the comments rule
(`configValueCommentInfo`). -/
structure ConfigValueCommentInfo where
  key : String
  infiniteValue : String
  baseComment : String
  issueWhenInvalid : Bool
deriving DecidableEq, Repr

/-- Modelled from the spec: the constant `localRetentionTimeCommentBase`
is referenced by the comments rule but defined outside the provided
sources; the repository's test expectations
(`msk_topic_config_comments_test.go`: "keep data in primary storage for 1
day") and the earlier in-repo revision of the rule pin its value. -/
def localRetentionTimeCommentBase : String := "keep data in primary storage"

/-- `configTimeValueCommentInfos`: the annotated duration properties. -/
def configTimeValueCommentInfos : List ConfigValueCommentInfo :=
  [⟨retentionTimeAttr, "-1", "keep data", false⟩,
   ⟨localRetentionTimeAttr, "-2", localRetentionTimeCommentBase, false⟩,
   ⟨"max.compaction.lag.ms", "", "allow not compacted keys maximum", true⟩]

/-- `configByteValueCommentInfos`: the annotated byte-size properties. -/
def configByteValueCommentInfos : List ConfigValueCommentInfo :=
  [⟨"max.message.bytes", "", "allow for a batch of records maximum", true⟩]

/-- Go's `math.Round`: round half away from zero, as an exact operation
on rationals. -/
def mathRound (x : ℚ) : ℚ :=
  if 0 ≤ x then ((⌊x + 1 / 2⌋ : ℤ) : ℚ) else -((⌊-x + 1 / 2⌋ : ℤ) : ℚ)

/-- `round`: round to 1 digit precision (`math.Round(val*10) / 10`). -/
def round (val : ℚ) : ℚ :=
  mathRound (val * 10) / 10

def bytesInOneKB : ℤ := 1024
def bytesInOneMB : ℤ := 1024 * bytesInOneKB
def bytesInOneGB : ℤ := 1024 * bytesInOneMB

/-- `determineTimeUnits` (comments rule): try years, months, days in
order, keeping the first whose rounded magnitude reaches 1, falling
through to hours.  The float arithmetic of the source is embedded as
exact rational arithmetic. -/
def determineTimeUnits (millis : ℤ) : ℚ × String :=
  let floatMillis : ℚ := (millis : ℚ)
  let timeInYears := round (floatMillis / (millisInOneYear : ℚ))
  if 1 ≤ timeInYears then
    (if timeInYears = 1 then ((1 : ℚ), "year") else (timeInYears, "years"))
  else
    let timeInMonths := round (floatMillis / (millisInOneMonth : ℚ))
    if 1 ≤ timeInMonths then
      (if timeInMonths = 1 then ((1 : ℚ), "month") else (timeInMonths, "months"))
    else
      let timeInDays := round (floatMillis / (millisInOneDay : ℚ))
      if 1 ≤ timeInDays then
        (if timeInDays = 1 then ((1 : ℚ), "day") else (timeInDays, "days"))
      else
        let timeInHours := round (floatMillis / (millisInOneHour : ℚ))
        if timeInHours = 1 then ((1 : ℚ), "hour") else (timeInHours, "hours")

/-- `determineByteUnits`: same cascade over GB/MB/KB with binary
multiples, falling through to raw bytes (unrounded). -/
def determineByteUnits (bytes : ℤ) : ℚ × String :=
  let floatBytes : ℚ := (bytes : ℚ)
  let gbs := round (floatBytes / (bytesInOneGB : ℚ))
  if 1 ≤ gbs then (gbs, "GB")
  else
    let mbs := round (floatBytes / (bytesInOneMB : ℚ))
    if 1 ≤ mbs then (mbs, "MB")
    else
      let kbs := round (floatBytes / (bytesInOneKB : ℚ))
      if 1 ≤ kbs then (kbs, "KB")
      else (floatBytes, "B")

/-- Rendering of a magnitude as Go's `strconv.FormatFloat(f, 'f', -1, 64)`
renders it, for the magnitudes the formatter produces (integers and exact
tenths): no fractional part for whole numbers, one decimal digit
otherwise. -/
def formatMagnitude (q : ℚ) : String :=
  if q.den = 1 then toString q.num
  else
    (if q < 0 then "-" else "")
      ++ toString ((q * 10).num.natAbs / 10) ++ "." ++ toString ((q * 10).num.natAbs % 10)

/-- `buildCommentForMillis`. -/
def buildCommentForMillis (timeMillis : ℤ) (baseComment : String) : String :=
  let tu := determineTimeUnits timeMillis
  "# " ++ baseComment ++ " for " ++ formatMagnitude tu.1 ++ " " ++ tu.2

/-- `buildCommentForBytes` (no space between magnitude and unit). -/
def buildCommentForBytes (bytes : ℤ) (baseComment : String) : String :=
  let bu := determineByteUnits bytes
  "# " ++ baseComment ++ " " ++ formatMagnitude bu.1 ++ bu.2

def invalidTimeValueMsg (key : String) : String :=
  key ++ " must have a valid integer value expressed in milliseconds"

def invalidByteValueMsg (key : String) : String :=
  key ++ " must have a valid integer value expressed in bytes"

/-- `buildDurationComment` (comments rule): the canonical comment for a
duration property, plus the issues emitted while building it (the
invalid-integer issue, only when the property owns validity). -/
def buildDurationComment (timePair : KeyValuePair) (info : ConfigValueCommentInfo) :
    String × List Issue :=
  if timePair.value = info.infiniteValue then ("# " ++ info.baseComment ++ " forever", [])
  else
    match go_atoi timePair.value with
    | none =>
        ("", if info.issueWhenInvalid then
          [⟨invalidTimeValueMsg info.key, timePair.valueRange, none⟩] else [])
    | some v => (buildCommentForMillis v info.baseComment, [])

/-- `buildDataSizeComment`: the canonical comment for a byte-size
property, plus the issues emitted while building it. -/
def buildDataSizeComment (dataPair : KeyValuePair) (info : ConfigValueCommentInfo) :
    String × List Issue :=
  if dataPair.value = info.infiniteValue then ("# " ++ info.baseComment ++ " unlimited", [])
  else
    match go_atoi dataPair.value with
    | none =>
        ("", if info.issueWhenInvalid then
          [⟨invalidByteValueMsg info.key, dataPair.valueRange, none⟩] else [])
    | some v => (buildCommentForBytes v info.baseComment, [])

/-- Predicate of the first `getExistingComment` search: a comment on the
key's line, after the value. -/
def commentAfterPair (pair : KeyValuePair) (c : CommentToken) : Bool :=
  c.range.start.line == pair.keyRange.start.line
    && pair.valueRange.stop.column < c.range.start.column

/-- Predicate of the second `getExistingComment` search: a comment on the
line immediately before the key, ending on the key's line. -/
def commentBeforePair (pair : KeyValuePair) (c : CommentToken) : Bool :=
  c.range.start.line == pair.keyRange.start.line - 1
    && c.range.stop.line == pair.keyRange.start.line

/-- `getExistingComment` (comments rule): first a same-line comment after
the value, then a comment on the previous line. -/
def getExistingComment (pair : KeyValuePair) (comments : List CommentToken) :
    Option CommentToken :=
  match comments.find? (commentAfterPair pair) with
  | some c => some c
  | none => comments.find? (commentBeforePair pair)

def noCommentMsg (key : String) : String :=
  key ++ " must have a comment with the human readable value: adding it ..."

def wrongCommentMsg (key : String) : String :=
  key ++ " value doesn\x27t correspond to the human readable value in the comment: fixing it ..."

/-- `reportHumanReadableComment`: insert the canonical comment after the
value when none is bound, replace the bound comment when its trimmed text
differs, do nothing when it matches. -/
def reportHumanReadableComment (keyValuePair : KeyValuePair) (comments : List CommentToken)
    (key commentMsg : String) : List Issue :=
  match getExistingComment keyValuePair comments with
  | none =>
      [⟨noCommentMsg key, keyValuePair.keyRange,
        some (FixOp.insertAfter keyValuePair.valueRange commentMsg)⟩]
  | some comment =>
      if goTrimSpace comment.bytes ≠ commentMsg then
        [⟨wrongCommentMsg key, comment.range,
          some (FixOp.replaceText comment.range (commentMsg ++ "\n"))⟩]
      else []

/-- `validateTimeConfigValue`. -/
def validateTimeConfigValue (pairs : List KeyValuePair) (comments : List CommentToken)
    (info : ConfigValueCommentInfo) : List Issue :=
  match lookupConfigKey pairs info.key with
  | none => []
  | some timePair =>
      let res := buildDurationComment timePair info
      res.2 ++
        (if res.1 = "" then []
         else reportHumanReadableComment timePair comments info.key res.1)

/-- `validateByteConfigValue`. -/
def validateByteConfigValue (pairs : List KeyValuePair) (comments : List CommentToken)
    (info : ConfigValueCommentInfo) : List Issue :=
  match lookupConfigKey pairs info.key with
  | none => []
  | some dataPair =>
      let res := buildDataSizeComment dataPair info
      res.2 ++
        (if res.1 = "" then []
         else reportHumanReadableComment dataPair comments info.key res.1)

/-- Issue concatenation over a table of property records, in table order. -/
def concatIssues {α : Type} (f : α → List Issue) : List α → List Issue
  | [] => []
  | x :: xs => f x ++ concatIssues f xs

/-- `validateConfigValuesInComments` (comments rule): all duration
properties in table order, then all byte-size properties. -/
def validateConfigValuesInComments (pairs : List KeyValuePair)
    (comments : List CommentToken) : List Issue :=
  concatIssues (validateTimeConfigValue pairs comments) configTimeValueCommentInfos
    ++ concatIssues (validateByteConfigValue pairs comments) configByteValueCommentInfos

/-- Models the effect, on the file's comment-token stream, of applying
the fix proposed by `reportHumanReadableComment` and re-lexing the file.
The host fixer and formatter are external collaborators; their effect is
taken from the repository's own fixed-output test expectations:
an `InsertTextAfter` of the comment text right after the value is
rendered as a comment token on the value's line starting one column after
the value's end, and a `ReplaceText` of a bound comment's range with the
canonical text plus newline yields a comment token with the new bytes at
the same start position. -/
def applyCommentFix (pair : KeyValuePair) (comments : List CommentToken)
    (commentMsg : String) : List CommentToken :=
  match getExistingComment pair comments with
  | none =>
      comments ++
        [⟨commentMsg ++ "\n",
          ⟨pair.valueRange.filename,
           ⟨pair.valueRange.stop.line, pair.valueRange.stop.column + 1⟩,
           ⟨pair.valueRange.stop.line + 1, 1⟩⟩⟩]
  | some c =>
      comments.map fun x =>
        if x = c then
          ⟨commentMsg ++ "\n",
           ⟨c.range.filename, c.range.start, ⟨c.range.start.line + 1, 1⟩⟩⟩
        else x

end Comments

/-! ## Concrete sample data used by witness and counterexample theorems -/

def sampleFile : String := "topics.tf"

def mkRange (l1 c1 l2 c2 : Nat) : SrcRange :=
  ⟨sampleFile, ⟨l1, c1⟩, ⟨l2, c2⟩⟩

def mkPair (k v : String) (line : Nat) : KeyValuePair :=
  ⟨k, v, mkRange line 5 line 25, mkRange line 30 line 40⟩

def topicNoReplNoName : Topic :=
  ⟨mkRange 2 1 2 40, none, none, none⟩

def cfgRetentionNeg : ConfigAttr :=
  ⟨mkRange 4 3 8 4, mkRange 4 12 4 13, [mkPair "retention.ms" "-5" 5]⟩

def cfgNoCleanup : ConfigAttr :=
  ⟨mkRange 4 3 8 4, mkRange 4 12 4 13, []⟩

def cfgRetentionBig : ConfigAttr :=
  ⟨mkRange 4 3 8 4, mkRange 4 12 4 13, [mkPair "retention.ms" "259200000" 5]⟩

def cfgCompact : ConfigAttr :=
  ⟨mkRange 4 3 8 4, mkRange 4 12 4 13,
   [mkPair "cleanup.policy" "compact" 5, mkPair "retention.ms" "86400000" 6]⟩

def cfgCompressionOnly : ConfigAttr :=
  ⟨mkRange 4 3 8 4, mkRange 4 12 4 13, [mkPair "compression.type" "zstd" 5]⟩

def topicScenario : Topic :=
  ⟨mkRange 2 1 2 40, some (mkRange 3 3 3 30), some (mkRange 4 3 4 26, some 3),
   some cfgCompressionOnly⟩

def pairLocalRetention : KeyValuePair := mkPair "local.retention.ms" "86400000" 7

def pairMaxCompactionEmpty : KeyValuePair := mkPair "max.compaction.lag.ms" "" 5

def cfgMaxCompactionEmpty : ConfigAttr :=
  ⟨mkRange 4 3 8 4, mkRange 4 12 4 13, [pairMaxCompactionEmpty]⟩

def topicMaxCompactionEmpty : Topic :=
  ⟨mkRange 2 1 2 40, some (mkRange 3 3 3 30), some (mkRange 4 3 4 26, some 3),
   some cfgMaxCompactionEmpty⟩

def commentMaxCompactionForever : CommentToken :=
  ⟨"# allow not compacted keys maximum forever\n", mkRange 5 42 6 1⟩

def pairMaxMessageNeg : KeyValuePair := mkPair "max.message.bytes" "-1" 5

def maxMessageBytesInfo : Comments.ConfigValueCommentInfo :=
  ⟨"max.message.bytes", "", "allow for a batch of records maximum", true⟩

def retentionCommentInfo : Comments.ConfigValueCommentInfo :=
  ⟨retentionTimeAttr, "-1", "keep data", false⟩

def pairRetentionInfinite : KeyValuePair := mkPair "retention.ms" "-1" 5

def cfgRetentionInvalid : ConfigAttr :=
  ⟨mkRange 4 3 8 4, mkRange 4 12 4 13, [mkPair "retention.ms" "six days" 5]⟩

def pairRetentionForComment : KeyValuePair := mkPair "retention.ms" "86400000" 5

/-! ## Theorems -/

/-- C10: when a kafka_topic resource is missing both its name and its
replication_factor, the rule still emits the missing-replication-factor
issue but with no fix (there is no insertion point after the name); with
a name present the same issue carries an insert-after-name fix. -/
theorem C10_missing_repl_factor_fix_depends_on_name (topic : Topic)
    (hnorf : topic.replFactor = none) :
    (topic.nameRange = none →
      TopicConfig.validateReplicationFactor topic =
        .ok [⟨TopicConfig.missingReplFactorMsg, topic.defRange, none⟩])
    ∧ (∀ nr, topic.nameRange = some nr →
      TopicConfig.validateReplicationFactor topic =
        .ok [⟨TopicConfig.missingReplFactorMsg, topic.defRange,
          some (FixOp.insertAfter nr ("\n" ++ TopicConfig.replFactorFix))⟩]) := by
  unfold TopicConfig.validateReplicationFactor TopicConfig.reportMissingReplicationFactor
  rw [hnorf]
  constructor
  · intro hn; rw [hn]
  · intro nr hn; rw [hn]

/-- Witness for C10 at a concrete topic with neither name nor
replication_factor. -/
theorem C10_witness :
    TopicConfig.validateReplicationFactor topicNoReplNoName =
      .ok [⟨TopicConfig.missingReplFactorMsg, topicNoReplNoName.defRange, none⟩] :=
  (C10_missing_repl_factor_fix_depends_on_name topicNoReplNoName rfl).1 rfl

/-- C9: every negative parseable retention value, not only -1, counts as
infinite retention: it satisfies `isInfiniteRetention` and
`mustEnableTieredStorage`, and `validateRetentionForDeletePolicy` takes
the tiered-storage-required branch for it. -/
theorem C9_negative_retention_is_infinite (v : Int) (hv : v < 0) :
    TopicConfig.isInfiniteRetention v = true
    ∧ TopicConfig.mustEnableTieredStorage v = true
    ∧ ∀ (config : ConfigAttr) (rp : KeyValuePair),
        lookupConfigKey config.pairs retentionTimeAttr = some rp →
        go_atoi rp.value = some v →
        TopicConfig.validateRetentionForDeletePolicy config =
          TopicConfig.validateTieredStorageEnabled config
            ++ TopicConfig.validateLocalRetentionDefined config := by
  have hinf : TopicConfig.isInfiniteRetention v = true := by
    simp [TopicConfig.isInfiniteRetention, hv]
  have hmust : TopicConfig.mustEnableTieredStorage v = true := by
    simp [TopicConfig.mustEnableTieredStorage, hinf]
  refine ⟨hinf, hmust, ?_⟩
  intro config rp h1 h2
  have hg : TopicConfig.getAndValidateRetentionTime config = (some v, []) := by
    simp [TopicConfig.getAndValidateRetentionTime, h1, h2]
  simp [TopicConfig.validateRetentionForDeletePolicy, hg, hmust]

/-- Witness for C9 at retention value -5. -/
theorem C9_witness :
    TopicConfig.validateRetentionForDeletePolicy cfgRetentionNeg =
      TopicConfig.validateTieredStorageEnabled cfgRetentionNeg
        ++ TopicConfig.validateLocalRetentionDefined cfgRetentionNeg :=
  (C9_negative_retention_is_infinite (-5) (by decide)).2.2 cfgRetentionNeg
    (mkPair "retention.ms" "-5" 5) (by decide) (by decide)

/-- C3: the cleanup-policy resolver yields delete (with an insert-default
issue) when the property is absent, the configured value (no issue) when
it is delete or compact, and the invalid marker (an issue with no fix)
otherwise, in which case the whole cleanup-policy check emits only that
issue and the retention rule does not run; the resolved value is always
one of delete, compact, or the invalid marker. -/
theorem C3_cleanup_policy_resolution (config : ConfigAttr) :
    (lookupConfigKey config.pairs cleanupPolicyKey = none →
      TopicConfig.getAndValidateCleanupPolicyValue config =
        (cleanupPolicyDefault,
         [⟨TopicConfig.missingCleanupPolicyMsg, config.range,
           some (FixOp.insertAfter config.exprStartRange
             ("\n" ++ TopicConfig.cleanupPolicyDefaultFix))⟩]))
    ∧ (∀ p, lookupConfigKey config.pairs cleanupPolicyKey = some p →
        (p.value = cleanupPolicyDelete ∨ p.value = cleanupPolicyCompact) →
        TopicConfig.getAndValidateCleanupPolicyValue config = (p.value, []))
    ∧ (∀ p, lookupConfigKey config.pairs cleanupPolicyKey = some p →
        p.value ≠ cleanupPolicyDelete → p.value ≠ cleanupPolicyCompact →
        TopicConfig.getAndValidateCleanupPolicyValue config =
          ("", [⟨TopicConfig.invalidCleanupPolicyMsg p.value, p.valueRange, none⟩])
        ∧ TopicConfig.validateCleanupPolicyConfig config =
          [⟨TopicConfig.invalidCleanupPolicyMsg p.value, p.valueRange, none⟩])
    ∧ ((TopicConfig.getAndValidateCleanupPolicyValue config).1 = cleanupPolicyDelete
        ∨ (TopicConfig.getAndValidateCleanupPolicyValue config).1 = cleanupPolicyCompact
        ∨ (TopicConfig.getAndValidateCleanupPolicyValue config).1 = "") := by
  refine ⟨?_, ?_, ?_, ?_⟩
  · intro hn
    simp [TopicConfig.getAndValidateCleanupPolicyValue, hn]
  · intro p hp hval
    simp [TopicConfig.getAndValidateCleanupPolicyValue, hp, hval]
  · intro p hp hd hc
    have hres : TopicConfig.getAndValidateCleanupPolicyValue config =
        ("", [⟨TopicConfig.invalidCleanupPolicyMsg p.value, p.valueRange, none⟩]) := by
      simp [TopicConfig.getAndValidateCleanupPolicyValue, hp, hd, hc]
    refine ⟨hres, ?_⟩
    simp [TopicConfig.validateCleanupPolicyConfig, hres, cleanupPolicyDelete,
      cleanupPolicyCompact]
  · rcases hl : lookupConfigKey config.pairs cleanupPolicyKey with _ | p
    · left
      simp [TopicConfig.getAndValidateCleanupPolicyValue, hl, cleanupPolicyDefault]
    · by_cases hval : p.value = cleanupPolicyDelete ∨ p.value = cleanupPolicyCompact
      · have hres : TopicConfig.getAndValidateCleanupPolicyValue config = (p.value, []) := by
          simp [TopicConfig.getAndValidateCleanupPolicyValue, hl, hval]
        rcases hval with h | h
        · left; rw [hres]; exact h
        · right; left; rw [hres]; exact h
      · right; right
        simp [TopicConfig.getAndValidateCleanupPolicyValue, hl, hval]

/-- Witness for C3 at a config with no cleanup.policy entry. -/
theorem C3_witness :
    TopicConfig.getAndValidateCleanupPolicyValue cfgNoCleanup =
      (cleanupPolicyDefault,
       [⟨TopicConfig.missingCleanupPolicyMsg, cfgNoCleanup.range,
         some (FixOp.insertAfter cfgNoCleanup.exprStartRange
           ("\n" ++ TopicConfig.cleanupPolicyDefaultFix))⟩]) :=
  (C3_cleanup_policy_resolution cfgNoCleanup).1 rfl

/-- C1: on the delete-policy branch with a parseable retention of at
least 3 days (259200000 ms) or negative (infinite), the rule runs exactly
the tiered-storage-required checks: an issue with an enabling fix exactly
when remote.storage.enable is absent or differs from "true", an issue
with the 1-day-default insert fix exactly when local.retention.ms is
absent, an issue with no fix when it is present but not an integer, and
no issue at all when tiered storage is enabled and local retention is
present and parseable. -/
theorem C1_delete_policy_tiered_storage_branch (config : ConfigAttr)
    (rp : KeyValuePair) (v : Int)
    (hrp : lookupConfigKey config.pairs retentionTimeAttr = some rp)
    (hv : go_atoi rp.value = some v)
    (hbig : 259200000 ≤ v ∨ v < 0) :
    (TopicConfig.validateRetentionForDeletePolicy config =
      TopicConfig.validateTieredStorageEnabled config
        ++ TopicConfig.validateLocalRetentionDefined config)
    ∧ (lookupConfigKey config.pairs tieredStorageEnableAttr = none →
        TopicConfig.validateTieredStorageEnabled config =
          [⟨TopicConfig.tieredStorageEnableMsg, config.range,
            some (FixOp.insertAfter config.exprStartRange
              ("\n" ++ TopicConfig.enableTieredStorage))⟩])
    ∧ (∀ p, lookupConfigKey config.pairs tieredStorageEnableAttr = some p →
        p.value ≠ tieredStorageEnabledValue →
        TopicConfig.validateTieredStorageEnabled config =
          [⟨TopicConfig.tieredStorageEnableMsg, p.valueRange,
            some (FixOp.replaceText p.valueRange "\"true\"")⟩])
    ∧ (∀ p, lookupConfigKey config.pairs tieredStorageEnableAttr = some p →
        p.value = tieredStorageEnabledValue →
        TopicConfig.validateTieredStorageEnabled config = [])
    ∧ (lookupConfigKey config.pairs localRetentionTimeAttr = none →
        TopicConfig.validateLocalRetentionDefined config =
          [⟨TopicConfig.missingLocalRetentionMsg, config.range,
            some (FixOp.insertAfter config.exprStartRange
              ("\n" ++ TopicConfig.localRetentionTimeFix))⟩])
    ∧ (∀ p, lookupConfigKey config.pairs localRetentionTimeAttr = some p →
        go_atoi p.value = none →
        TopicConfig.validateLocalRetentionDefined config =
          [⟨TopicConfig.invalidLocalRetentionMsg, p.valueRange, none⟩])
    ∧ (∀ p n, lookupConfigKey config.pairs localRetentionTimeAttr = some p →
        go_atoi p.value = some n →
        TopicConfig.validateLocalRetentionDefined config = []) := by
  have hmust : TopicConfig.mustEnableTieredStorage v = true := by
    rcases hbig with h | h
    · have : tieredStorageThresholdInDays * millisInOneDay ≤ v := by
        simp only [tieredStorageThresholdInDays, millisInOneDay, millisInOneHour]
        omega
      simp [TopicConfig.mustEnableTieredStorage, this]
    · simp [TopicConfig.mustEnableTieredStorage, TopicConfig.isInfiniteRetention, h]
  have hg : TopicConfig.getAndValidateRetentionTime config = (some v, []) := by
    simp [TopicConfig.getAndValidateRetentionTime, hrp, hv]
  refine ⟨?_, ?_, ?_, ?_, ?_, ?_, ?_⟩
  · simp [TopicConfig.validateRetentionForDeletePolicy, hg, hmust]
  · intro hn
    simp [TopicConfig.validateTieredStorageEnabled, hn]
  · intro p hp hne
    simp [TopicConfig.validateTieredStorageEnabled, hp, hne]
  · intro p hp he
    simp [TopicConfig.validateTieredStorageEnabled, hp, he]
  · intro hn
    simp [TopicConfig.validateLocalRetentionDefined, hn]
  · intro p hp hbad
    simp [TopicConfig.validateLocalRetentionDefined, hp, hbad]
  · intro p n hp hn
    simp [TopicConfig.validateLocalRetentionDefined, hp, hn]

/-- Witness for C1 at a config whose only entry is retention.ms =
259200000: the branch equality instantiated there. -/
theorem C1_witness :
    TopicConfig.validateRetentionForDeletePolicy cfgRetentionBig =
      TopicConfig.validateTieredStorageEnabled cfgRetentionBig
        ++ TopicConfig.validateLocalRetentionDefined cfgRetentionBig :=
  (C1_delete_policy_tiered_storage_branch cfgRetentionBig
    (mkPair "retention.ms" "259200000" 5) 259200000
    (by decide) (by decide) (Or.inl (by decide))).1

/-- C2: with effective cleanup policy compact, the rule runs exactly the
three not-defined checks, and each of retention.ms, remote.storage.enable
= "true", and local.retention.ms that is present yields exactly one issue
whose fix removes exactly the span from the property's key start to its
value end (remote.storage.enable only when its value is "true"). -/
theorem C2_compact_policy_removals (config : ConfigAttr) (cp : KeyValuePair)
    (hcp : lookupConfigKey config.pairs cleanupPolicyKey = some cp)
    (hval : cp.value = cleanupPolicyCompact) :
    (TopicConfig.validateCleanupPolicyConfig config =
      TopicConfig.validateTieredStorageDisabled config "compacted topic"
        ++ TopicConfig.validateLocalRetentionNotDefined config "compacted topic"
        ++ TopicConfig.validateRetentionTimeNotDefined config "compacted topic")
    ∧ (∀ p, lookupConfigKey config.pairs retentionTimeAttr = some p →
        TopicConfig.validateRetentionTimeNotDefined config "compacted topic" =
          [⟨TopicConfig.retentionMisleadingMsg "compacted topic", p.keyRange,
            some (FixOp.remove ⟨p.keyRange.filename, p.keyRange.start, p.valueRange.stop⟩)⟩])
    ∧ (lookupConfigKey config.pairs retentionTimeAttr = none →
        TopicConfig.validateRetentionTimeNotDefined config "compacted topic" = [])
    ∧ (∀ p, lookupConfigKey config.pairs tieredStorageEnableAttr = some p →
        (p.value = tieredStorageEnabledValue →
          TopicConfig.validateTieredStorageDisabled config "compacted topic" =
            [⟨TopicConfig.tieredNotSupportedMsg "compacted topic", p.valueRange,
              some (FixOp.remove ⟨p.keyRange.filename, p.keyRange.start, p.valueRange.stop⟩)⟩])
        ∧ (p.value ≠ tieredStorageEnabledValue →
          TopicConfig.validateTieredStorageDisabled config "compacted topic" = []))
    ∧ (lookupConfigKey config.pairs tieredStorageEnableAttr = none →
        TopicConfig.validateTieredStorageDisabled config "compacted topic" = [])
    ∧ (∀ p, lookupConfigKey config.pairs localRetentionTimeAttr = some p →
        TopicConfig.validateLocalRetentionNotDefined config "compacted topic" =
          [⟨TopicConfig.localMisleadingMsg "compacted topic", p.valueRange,
            some (FixOp.remove ⟨p.keyRange.filename, p.keyRange.start, p.valueRange.stop⟩)⟩])
    ∧ (lookupConfigKey config.pairs localRetentionTimeAttr = none →
        TopicConfig.validateLocalRetentionNotDefined config "compacted topic" = []) := by
  have hres : TopicConfig.getAndValidateCleanupPolicyValue config = (cp.value, []) := by
    simp [TopicConfig.getAndValidateCleanupPolicyValue, hcp, hval]
  refine ⟨?_, ?_, ?_, ?_, ?_, ?_, ?_⟩
  · simp [TopicConfig.validateCleanupPolicyConfig, hres, hval,
      cleanupPolicyCompact, cleanupPolicyDelete]
  · intro p hp
    simp [TopicConfig.validateRetentionTimeNotDefined, hp]
  · intro hn
    simp [TopicConfig.validateRetentionTimeNotDefined, hn]
  · intro p hp
    constructor
    · intro he
      simp [TopicConfig.validateTieredStorageDisabled, hp, he]
    · intro hne
      simp [TopicConfig.validateTieredStorageDisabled, hp, hne]
  · intro hn
    simp [TopicConfig.validateTieredStorageDisabled, hn]
  · intro p hp
    simp [TopicConfig.validateLocalRetentionNotDefined, hp]
  · intro hn
    simp [TopicConfig.validateLocalRetentionNotDefined, hn]

/-- Witness for C2 at a config with cleanup.policy = compact and a
retention.ms entry. -/
theorem C2_witness :
    TopicConfig.validateRetentionTimeNotDefined cfgCompact "compacted topic" =
      [⟨TopicConfig.retentionMisleadingMsg "compacted topic",
        (mkPair "retention.ms" "86400000" 6).keyRange,
        some (FixOp.remove ⟨(mkPair "retention.ms" "86400000" 6).keyRange.filename,
          (mkPair "retention.ms" "86400000" 6).keyRange.start,
          (mkPair "retention.ms" "86400000" 6).valueRange.stop⟩)⟩] :=
  (C2_compact_policy_removals cfgCompact (mkPair "cleanup.policy" "compact" 5)
    (by decide) rfl).2.1 (mkPair "retention.ms" "86400000" 6) (by decide)

/-- C8: a topic whose config lacks cleanup.policy and retention.ms but
has compression.type "zstd" and replication_factor 3 yields exactly two
issues, in order: the missing cleanup policy with a fix inserting the
default, and the missing retention time with a fix inserting the invalid
placeholder; nothing about replication factor or compression type. -/
theorem C8_missing_policy_and_retention_scenario (topic : Topic)
    (config : ConfigAttr) (r : SrcRange) (pc : KeyValuePair)
    (comments : List CommentToken)
    (hconf : topic.config = some config)
    (hrepl : topic.replFactor = some (r, some 3))
    (hcomp : lookupConfigKey config.pairs compressionTypeKey = some pc)
    (hz : pc.value = compressionTypeVal)
    (hclean : lookupConfigKey config.pairs cleanupPolicyKey = none)
    (hret : lookupConfigKey config.pairs retentionTimeAttr = none) :
    TopicConfig.validateTopicConfig topic comments =
      .ok [⟨TopicConfig.missingCleanupPolicyMsg, config.range,
             some (FixOp.insertAfter config.exprStartRange
               ("\n" ++ TopicConfig.cleanupPolicyDefaultFix))⟩,
           ⟨TopicConfig.missingRetentionTimeMsg, config.range,
             some (FixOp.insertAfter config.exprStartRange
               ("\n" ++ TopicConfig.retentionTimeDefTemplate))⟩] := by
  have h1 : TopicConfig.validateReplicationFactor topic = .ok [] := by
    simp [TopicConfig.validateReplicationFactor, hrepl]
  have h2 : TopicConfig.validateCompressionType config = [] := by
    simp [TopicConfig.validateCompressionType, hcomp, hz]
  have h3 : TopicConfig.getAndValidateCleanupPolicyValue config =
      (cleanupPolicyDefault,
       [⟨TopicConfig.missingCleanupPolicyMsg, config.range,
         some (FixOp.insertAfter config.exprStartRange
           ("\n" ++ TopicConfig.cleanupPolicyDefaultFix))⟩]) := by
    simp [TopicConfig.getAndValidateCleanupPolicyValue, hclean]
  have h4 : TopicConfig.validateRetentionForDeletePolicy config =
      [⟨TopicConfig.missingRetentionTimeMsg, config.range,
        some (FixOp.insertAfter config.exprStartRange
          ("\n" ++ TopicConfig.retentionTimeDefTemplate))⟩] := by
    simp [TopicConfig.validateRetentionForDeletePolicy,
      TopicConfig.getAndValidateRetentionTime, hret]
  have h5 : TopicConfig.validateCleanupPolicyConfig config =
      [⟨TopicConfig.missingCleanupPolicyMsg, config.range,
         some (FixOp.insertAfter config.exprStartRange
           ("\n" ++ TopicConfig.cleanupPolicyDefaultFix))⟩,
       ⟨TopicConfig.missingRetentionTimeMsg, config.range,
         some (FixOp.insertAfter config.exprStartRange
           ("\n" ++ TopicConfig.retentionTimeDefTemplate))⟩] := by
    simp [TopicConfig.validateCleanupPolicyConfig, h3, h4,
      cleanupPolicyDefault, cleanupPolicyDelete]
  have h6 : TopicConfig.validateConfigValuesInComments config comments = [] := by
    simp [TopicConfig.validateConfigValuesInComments, hret]
  simp [TopicConfig.validateTopicConfig, h1, hconf, h2, h5, h6]

/-- Witness for C8 at a concrete topic with only compression.type =
"zstd" in its config. -/
theorem C8_witness :
    TopicConfig.validateTopicConfig topicScenario [] =
      .ok [⟨TopicConfig.missingCleanupPolicyMsg, cfgCompressionOnly.range,
             some (FixOp.insertAfter cfgCompressionOnly.exprStartRange
               ("\n" ++ TopicConfig.cleanupPolicyDefaultFix))⟩,
           ⟨TopicConfig.missingRetentionTimeMsg, cfgCompressionOnly.range,
             some (FixOp.insertAfter cfgCompressionOnly.exprStartRange
               ("\n" ++ TopicConfig.retentionTimeDefTemplate))⟩] :=
  C8_missing_policy_and_retention_scenario topicScenario cfgCompressionOnly
    (mkRange 4 3 4 26) (mkPair "compression.type" "zstd" 5) []
    rfl rfl (by decide) rfl rfl rfl

/-- C4: for every non-negative millisecond count d the duration formatter
tries years, months, days in order and keeps the first unit whose rounded
magnitude (round half-up to one decimal of d divided by the unit length)
reaches 1, falling through to hours, rendering the rounded magnitude with
the singular unit name exactly when it equals 1; in particular 86400000
formats as 1 day, 5184000000 as 2 months, 31536000000 as 1 year, and
21600000 as 6 hours. -/
theorem C4_duration_unit_selection :
    (∀ d : ℤ, 0 ≤ d →
      (1 ≤ Comments.round ((d : ℚ) / (millisInOneYear : ℚ)) →
        Comments.determineTimeUnits d =
          (Comments.round ((d : ℚ) / (millisInOneYear : ℚ)),
           if Comments.round ((d : ℚ) / (millisInOneYear : ℚ)) = 1 then "year" else "years"))
      ∧ (Comments.round ((d : ℚ) / (millisInOneYear : ℚ)) < 1 →
         1 ≤ Comments.round ((d : ℚ) / (millisInOneMonth : ℚ)) →
        Comments.determineTimeUnits d =
          (Comments.round ((d : ℚ) / (millisInOneMonth : ℚ)),
           if Comments.round ((d : ℚ) / (millisInOneMonth : ℚ)) = 1 then "month" else "months"))
      ∧ (Comments.round ((d : ℚ) / (millisInOneYear : ℚ)) < 1 →
         Comments.round ((d : ℚ) / (millisInOneMonth : ℚ)) < 1 →
         1 ≤ Comments.round ((d : ℚ) / (millisInOneDay : ℚ)) →
        Comments.determineTimeUnits d =
          (Comments.round ((d : ℚ) / (millisInOneDay : ℚ)),
           if Comments.round ((d : ℚ) / (millisInOneDay : ℚ)) = 1 then "day" else "days"))
      ∧ (Comments.round ((d : ℚ) / (millisInOneYear : ℚ)) < 1 →
         Comments.round ((d : ℚ) / (millisInOneMonth : ℚ)) < 1 →
         Comments.round ((d : ℚ) / (millisInOneDay : ℚ)) < 1 →
        Comments.determineTimeUnits d =
          (Comments.round ((d : ℚ) / (millisInOneHour : ℚ)),
           if Comments.round ((d : ℚ) / (millisInOneHour : ℚ)) = 1 then "hour" else "hours")))
    ∧ Comments.determineTimeUnits 86400000 = (1, "day")
    ∧ Comments.determineTimeUnits 5184000000 = (2, "months")
    ∧ Comments.determineTimeUnits 31536000000 = (1, "year")
    ∧ Comments.determineTimeUnits 21600000 = (6, "hours") := by
  refine ⟨?_, ?_, ?_, ?_, ?_⟩
  · intro d _
    refine ⟨?_, ?_, ?_, ?_⟩
    · intro hy
      rw [Comments.determineTimeUnits, if_pos hy]
      by_cases h1 : Comments.round ((d : ℚ) / (millisInOneYear : ℚ)) = 1
      · rw [if_pos h1, if_pos h1, h1]
      · rw [if_neg h1, if_neg h1]
    · intro hy hm
      rw [Comments.determineTimeUnits, if_neg (not_le.mpr hy), if_pos hm]
      by_cases h1 : Comments.round ((d : ℚ) / (millisInOneMonth : ℚ)) = 1
      · rw [if_pos h1, if_pos h1, h1]
      · rw [if_neg h1, if_neg h1]
    · intro hy hm hd
      rw [Comments.determineTimeUnits, if_neg (not_le.mpr hy), if_neg (not_le.mpr hm),
        if_pos hd]
      by_cases h1 : Comments.round ((d : ℚ) / (millisInOneDay : ℚ)) = 1
      · rw [if_pos h1, if_pos h1, h1]
      · rw [if_neg h1, if_neg h1]
    · intro hy hm hd
      rw [Comments.determineTimeUnits, if_neg (not_le.mpr hy), if_neg (not_le.mpr hm),
        if_neg (not_le.mpr hd)]
      by_cases h1 : Comments.round ((d : ℚ) / (millisInOneHour : ℚ)) = 1
      · rw [if_pos h1, if_pos h1, h1]
      · rw [if_neg h1, if_neg h1]
  · norm_num [Comments.determineTimeUnits, Comments.round, Comments.mathRound,
      millisInOneYear, millisInOneMonth, millisInOneDay, millisInOneHour]
  · norm_num [Comments.determineTimeUnits, Comments.round, Comments.mathRound,
      millisInOneYear, millisInOneMonth, millisInOneDay, millisInOneHour]
  · norm_num [Comments.determineTimeUnits, Comments.round, Comments.mathRound,
      millisInOneYear, millisInOneMonth, millisInOneDay, millisInOneHour]
  · norm_num [Comments.determineTimeUnits, Comments.round, Comments.mathRound,
      millisInOneYear, millisInOneMonth, millisInOneDay, millisInOneHour]

/-- Witness for C4: the unit-selection characterization applied at
86400000 milliseconds. -/
theorem C4_witness :
    (1 ≤ Comments.round ((86400000 : ℚ) / (millisInOneYear : ℚ)) →
      Comments.determineTimeUnits 86400000 =
        (Comments.round ((86400000 : ℚ) / (millisInOneYear : ℚ)),
         if Comments.round ((86400000 : ℚ) / (millisInOneYear : ℚ)) = 1 then "year" else "years"))
    ∧ (Comments.round ((86400000 : ℚ) / (millisInOneYear : ℚ)) < 1 →
       1 ≤ Comments.round ((86400000 : ℚ) / (millisInOneMonth : ℚ)) →
      Comments.determineTimeUnits 86400000 =
        (Comments.round ((86400000 : ℚ) / (millisInOneMonth : ℚ)),
         if Comments.round ((86400000 : ℚ) / (millisInOneMonth : ℚ)) = 1 then "month" else "months"))
    ∧ (Comments.round ((86400000 : ℚ) / (millisInOneYear : ℚ)) < 1 →
       Comments.round ((86400000 : ℚ) / (millisInOneMonth : ℚ)) < 1 →
       1 ≤ Comments.round ((86400000 : ℚ) / (millisInOneDay : ℚ)) →
      Comments.determineTimeUnits 86400000 =
        (Comments.round ((86400000 : ℚ) / (millisInOneDay : ℚ)),
         if Comments.round ((86400000 : ℚ) / (millisInOneDay : ℚ)) = 1 then "day" else "days"))
    ∧ (Comments.round ((86400000 : ℚ) / (millisInOneYear : ℚ)) < 1 →
       Comments.round ((86400000 : ℚ) / (millisInOneMonth : ℚ)) < 1 →
       Comments.round ((86400000 : ℚ) / (millisInOneDay : ℚ)) < 1 →
      Comments.determineTimeUnits 86400000 =
        (Comments.round ((86400000 : ℚ) / (millisInOneHour : ℚ)),
         if Comments.round ((86400000 : ℚ) / (millisInOneHour : ℚ)) = 1 then "hour" else "hours")) :=
  C4_duration_unit_selection.1 86400000 (by decide)

/-- Counterexample for C5: the comments rule's table gives
max.message.bytes the empty string as infinite sentinel, not "-1"; with
the value "-1" the built comment is the magnitude-and-unit text
"... -1B", not the "unlimited" phrase. -/
theorem C5_counterexample :
    Comments.configByteValueCommentInfos = [maxMessageBytesInfo]
    ∧ maxMessageBytesInfo.infiniteValue = ""
    ∧ maxMessageBytesInfo.infiniteValue ≠ "-1"
    ∧ Comments.buildDataSizeComment pairMaxMessageNeg maxMessageBytesInfo =
        ("# allow for a batch of records maximum -1B", [])
    ∧ ("# allow for a batch of records maximum -1B" : String)
        ≠ "# allow for a batch of records maximum unlimited" := by
  refine ⟨rfl, rfl, by decide, ?_, by decide⟩
  have hatoi : go_atoi "-1" = some (-1) := by decide
  have h1 : Comments.determineByteUnits (-1) = ((-1 : ℚ), "B") := by
    norm_num [Comments.determineByteUnits, Comments.round, Comments.mathRound,
      Comments.bytesInOneGB, Comments.bytesInOneMB, Comments.bytesInOneKB]
  have h2 : Comments.formatMagnitude (-1) = "-1" := by decide
  have hval : pairMaxMessageNeg.value = "-1" := rfl
  simp [Comments.buildDataSizeComment, maxMessageBytesInfo, hval, hatoi,
    Comments.buildCommentForBytes, h1, h2]

/-- C5 as amended: a property value equal to the property's designated
infinite sentinel always yields the fixed phrase (basePhrase plus
"forever" for durations, plus "unlimited" for byte sizes); the sentinel
is "-1" for the duration property retention.ms but the empty string, not
"-1", for the size property max.message.bytes. -/
theorem C5_infinite_sentinel_phrases :
    (∀ info ∈ Comments.configTimeValueCommentInfos, ∀ p : KeyValuePair,
      p.value = info.infiniteValue →
      Comments.buildDurationComment p info =
        ("# " ++ info.baseComment ++ " forever", []))
    ∧ (∀ info ∈ Comments.configByteValueCommentInfos, ∀ p : KeyValuePair,
      p.value = info.infiniteValue →
      Comments.buildDataSizeComment p info =
        ("# " ++ info.baseComment ++ " unlimited", []))
    ∧ Comments.configTimeValueCommentInfos.find?
        (fun i => i.key == retentionTimeAttr) =
        some ⟨retentionTimeAttr, "-1", "keep data", false⟩
    ∧ Comments.configByteValueCommentInfos.find?
        (fun i => i.key == "max.message.bytes") =
        some ⟨"max.message.bytes", "", "allow for a batch of records maximum", true⟩ := by
  refine ⟨?_, ?_, by decide, by decide⟩
  · intro info _ p hv
    simp [Comments.buildDurationComment, hv]
  · intro info _ p hv
    simp [Comments.buildDataSizeComment, hv]

/-- Witness for the amended C5: retention.ms with value "-1" formats as
the forever phrase. -/
theorem C5_witness :
    Comments.buildDurationComment pairRetentionInfinite retentionCommentInfo =
      ("# keep data forever", []) :=
  C5_infinite_sentinel_phrases.1 retentionCommentInfo (by decide)
    pairRetentionInfinite rfl

/-- Counterexample for C7: the empty string does not parse as an integer,
yet for max.compaction.lag.ms (whose validity the claim assigns to the
comment rule, issueWhenInvalid = true) the empty string equals the
property's infinite sentinel, so the comment rule emits no issue at all
for it (here the bound comment already matches the forever phrase), and
the topic-config rule emits only its three issues about compression,
cleanup policy and retention time — no rule reports the non-numeric
value. -/
theorem C7_counterexample :
    go_atoi "" = none
    ∧ Comments.validateConfigValuesInComments [pairMaxCompactionEmpty]
        [commentMaxCompactionForever] = []
    ∧ TopicConfig.validateTopicConfig topicMaxCompactionEmpty
        [commentMaxCompactionForever] =
      .ok [⟨TopicConfig.missingCompressionMsg, cfgMaxCompactionEmpty.range,
             some (FixOp.insertAfter cfgMaxCompactionEmpty.exprStartRange
               ("\n" ++ TopicConfig.compressionTypeFix))⟩,
           ⟨TopicConfig.missingCleanupPolicyMsg, cfgMaxCompactionEmpty.range,
             some (FixOp.insertAfter cfgMaxCompactionEmpty.exprStartRange
               ("\n" ++ TopicConfig.cleanupPolicyDefaultFix))⟩,
           ⟨TopicConfig.missingRetentionTimeMsg, cfgMaxCompactionEmpty.range,
             some (FixOp.insertAfter cfgMaxCompactionEmpty.exprStartRange
               ("\n" ++ TopicConfig.retentionTimeDefTemplate))⟩] :=
  ⟨rfl, rfl, rfl⟩

/-- C7 as amended: for a non-parsing value that is not the property's
infinite sentinel, exactly the owning rule reports it, with no fix: the
comment rule is silent for retention.ms and local.retention.ms
(issueWhenInvalid = false) while the topic-config rule reports them, and
the comment rule reports max.compaction.lag.ms and max.message.bytes
(issueWhenInvalid = true, sentinel = empty string). -/
theorem C7_invalid_value_ownership :
    (∀ p : KeyValuePair, go_atoi p.value = none →
      Comments.buildDurationComment p ⟨retentionTimeAttr, "-1", "keep data", false⟩
        = ("", [])
      ∧ Comments.buildDurationComment p
          ⟨localRetentionTimeAttr, "-2", Comments.localRetentionTimeCommentBase, false⟩
        = ("", []))
    ∧ (∀ p : KeyValuePair, go_atoi p.value = none → p.value ≠ "" →
      Comments.buildDurationComment p
          ⟨"max.compaction.lag.ms", "", "allow not compacted keys maximum", true⟩
        = ("", [⟨Comments.invalidTimeValueMsg "max.compaction.lag.ms",
            p.valueRange, none⟩])
      ∧ Comments.buildDataSizeComment p
          ⟨"max.message.bytes", "", "allow for a batch of records maximum", true⟩
        = ("", [⟨Comments.invalidByteValueMsg "max.message.bytes",
            p.valueRange, none⟩]))
    ∧ (∀ (config : ConfigAttr) (p : KeyValuePair),
        lookupConfigKey config.pairs retentionTimeAttr = some p →
        go_atoi p.value = none →
        TopicConfig.getAndValidateRetentionTime config =
          (none, [⟨TopicConfig.invalidRetentionTimeMsg, p.valueRange, none⟩]))
    ∧ (∀ (config : ConfigAttr) (p : KeyValuePair),
        lookupConfigKey config.pairs localRetentionTimeAttr = some p →
        go_atoi p.value = none →
        TopicConfig.validateLocalRetentionDefined config =
          [⟨TopicConfig.invalidLocalRetentionMsg, p.valueRange, none⟩]) := by
  refine ⟨?_, ?_, ?_, ?_⟩
  · intro p hbad
    have hne1 : p.value ≠ "-1" := by
      intro h
      rw [h] at hbad
      exact absurd hbad (by decide)
    have hne2 : p.value ≠ "-2" := by
      intro h
      rw [h] at hbad
      exact absurd hbad (by decide)
    constructor
    · simp [Comments.buildDurationComment, hne1, hbad]
    · simp [Comments.buildDurationComment, hne2, hbad]
  · intro p hbad hne
    constructor
    · simp [Comments.buildDurationComment, hne, hbad]
    · simp [Comments.buildDataSizeComment, hne, hbad]
  · intro config p hp hbad
    simp [TopicConfig.getAndValidateRetentionTime, hp, hbad]
  · intro config p hp hbad
    simp [TopicConfig.validateLocalRetentionDefined, hp, hbad]

/-- Witness for the amended C7: retention.ms = "six days" is reported by
the topic-config rule with no fix. -/
theorem C7_witness :
    TopicConfig.getAndValidateRetentionTime cfgRetentionInvalid =
      (none, [⟨TopicConfig.invalidRetentionTimeMsg,
        (mkPair "retention.ms" "six days" 5).valueRange, none⟩]) :=
  C7_invalid_value_ownership.2.2.1 cfgRetentionInvalid
    (mkPair "retention.ms" "six days" 5) (by decide) (by decide)

/-- Helper: dropWhile never lengthens a list. -/
theorem length_dropWhile_le_self {α : Type} (p : α → Bool) :
    (l : List α) → (l.dropWhile p).length ≤ l.length
  | [] => Nat.le_refl 0
  | a :: t => by
    rw [List.dropWhile_cons]
    split_ifs
    · exact Nat.le_trans (length_dropWhile_le_self p t) (Nat.le_succ _)
    · exact Nat.le_refl _

/-- Helper: a dropWhile that preserves the length drops nothing. -/
theorem dropWhile_eq_self_of_length_eq {α : Type} (p : α → Bool) (l : List α)
    (h : (l.dropWhile p).length = l.length) : l.dropWhile p = l := by
  cases l with
  | nil => rfl
  | cons a t =>
    rw [List.dropWhile_cons] at h ⊢
    by_cases hpa : p a = true
    · rw [if_pos hpa] at h
      have hle := length_dropWhile_le_self p t
      simp at h
      exact absurd h (by omega)
    · rw [if_neg hpa]

/-- Helper: a trimmed-in-place character list has no leading and no
trailing whitespace. -/
theorem trimChars_self_parts (cs : List Char) (h : trimChars cs = cs) :
    cs.dropWhile isGoSpace = cs ∧ cs.reverse.dropWhile isGoSpace = cs.reverse := by
  have hlen := congrArg List.length h
  unfold trimChars at hlen
  simp only [List.length_reverse] at hlen
  have h1 := length_dropWhile_le_self isGoSpace cs
  have h2 := length_dropWhile_le_self isGoSpace (cs.dropWhile isGoSpace).reverse
  simp only [List.length_reverse] at h2
  have e1 : (cs.dropWhile isGoSpace).length = cs.length := by omega
  have d1 : cs.dropWhile isGoSpace = cs := dropWhile_eq_self_of_length_eq _ _ e1
  rw [d1] at hlen
  have e2 : (cs.reverse.dropWhile isGoSpace).length = cs.reverse.length := by
    simp only [List.length_reverse]
    omega
  exact ⟨d1, dropWhile_eq_self_of_length_eq _ _ e2⟩

/-- Helper: appending a newline to a nonempty trimmed character list and
trimming again recovers the list. -/
theorem trimChars_append_newline (cs : List Char) (hne : cs ≠ [])
    (h : trimChars cs = cs) : trimChars (cs ++ ['\n']) = cs := by
  obtain ⟨d1, d2⟩ := trimChars_self_parts cs h
  have front : (cs ++ ['\n']).dropWhile isGoSpace = cs ++ ['\n'] := by
    cases cs with
    | nil => exact absurd rfl hne
    | cons a t =>
      have hpa : ¬ isGoSpace a = true := by
        intro hp
        rw [List.dropWhile_cons, if_pos hp] at d1
        have hle := length_dropWhile_le_self isGoSpace t
        have hlen := congrArg List.length d1
        simp at hlen
        omega
      rw [List.cons_append, List.dropWhile_cons, if_neg hpa]
  unfold trimChars
  rw [front, List.reverse_append]
  simp only [List.reverse_cons, List.reverse_nil, List.nil_append, List.singleton_append]
  rw [List.dropWhile_cons, if_pos (by decide : isGoSpace '\n' = true)]
  rw [d2, List.reverse_reverse]

/-- Helper: `goTrimSpace` of a nonempty trimmed string with a newline
appended recovers the string. -/
theorem goTrimSpace_append_newline (s : String) (hne : s ≠ "")
    (h : goTrimSpace s = s) : goTrimSpace (s ++ "\n") = s := by
  have hd : trimChars s.data = s.data := congrArg String.data h
  have hne' : s.data ≠ [] := by
    intro hnil
    apply hne
    cases s with
    | mk l =>
      simp only at hnil
      subst hnil
      rfl
  have key := trimChars_append_newline s.data hne' hd
  unfold goTrimSpace
  rw [String.data_append]
  have hnl : ("\n" : String).data = ['\n'] := rfl
  rw [hnl, key]

/-- Helper: appending a single satisfying element to a list on which
`find?` fails makes `find?` return that element. -/
theorem find?_append_singleton {α : Type} (p : α → Bool) (l : List α) (t : α)
    (h : l.find? p = none) (ht : p t = true) : (l ++ [t]).find? p = some t := by
  rw [List.find?_append, h]
  simp [List.find?, ht]

/-- Helper: replacing the first element `find?` returns by an element
that still satisfies the predicate makes `find?` return the replacement. -/
theorem find?_replace_first {α : Type} [DecidableEq α] (p : α → Bool) (l : List α)
    (c c' : α) (h : l.find? p = some c) (hc' : p c' = true) :
    (l.map fun x => if x = c then c' else x).find? p = some c' := by
  induction l with
  | nil => simp at h
  | cons a t ih =>
    by_cases hpa : p a = true
    · rw [List.find?_cons_of_pos t hpa] at h
      have ha : a = c := by injection h
      subst ha
      simp only [List.map_cons, if_pos rfl]
      exact List.find?_cons_of_pos _ hc'
    · rw [List.find?_cons_of_neg t (by simpa using hpa)] at h
      have hac : a ≠ c := by
        intro he
        rw [he] at hpa
        exact hpa (List.find?_some h)
      simp only [List.map_cons, if_neg hac]
      rw [List.find?_cons_of_neg _ (by simpa using hpa)]
      exact ih h

/-- Helper: `find?` fails on a mapped list when the predicate fails on
every image. -/
theorem find?_map_eq_none {α β : Type} (p : β → Bool) (f : α → β) (l : List α)
    (h : ∀ x ∈ l, p (f x) = false) : (l.map f).find? p = none := by
  apply List.find?_eq_none.mpr
  intro y hy
  rcases List.mem_map.mp hy with ⟨x, hx, rfl⟩
  simp [h x hx]

/-- C6: the comment synchronizer is idempotent: applying the fix it
proposes (inserting the canonical comment after the value when none is
bound, or replacing the bound comment's range with the canonical text)
and reconciling the resulting comment stream again emits no issue for the
property.  The canonical message is assumed nonempty and trimmed, the
key/value pair lies on one line, and lines are 1-based. -/
theorem C6_comment_reconcile_idempotent (pair : KeyValuePair)
    (comments : List CommentToken) (key msg : String)
    (hmsg : goTrimSpace msg = msg) (hne : msg ≠ "")
    (hline : pair.valueRange.stop.line = pair.keyRange.start.line)
    (hpos : 1 ≤ pair.keyRange.start.line) :
    Comments.reportHumanReadableComment pair
      (Comments.applyCommentFix pair comments msg) key msg = [] := by
  have htrim : goTrimSpace (msg ++ "\n") = msg := goTrimSpace_append_newline msg hne hmsg
  rcases hg : Comments.getExistingComment pair comments with _ | c
  · -- no bound comment: the fix inserts a fresh one after the value
    have hf1 : comments.find? (Comments.commentAfterPair pair) = none := by
      unfold Comments.getExistingComment at hg
      rcases hf : comments.find? (Comments.commentAfterPair pair) with _ | d
      · rfl
      · rw [hf] at hg
        simp at hg
    have happly : Comments.applyCommentFix pair comments msg =
        comments ++
          [⟨msg ++ "\n",
            ⟨pair.valueRange.filename,
             ⟨pair.valueRange.stop.line, pair.valueRange.stop.column + 1⟩,
             ⟨pair.valueRange.stop.line + 1, 1⟩⟩⟩] := by
      unfold Comments.applyCommentFix
      rw [hg]
    have hptok : Comments.commentAfterPair pair
        ⟨msg ++ "\n",
         ⟨pair.valueRange.filename,
          ⟨pair.valueRange.stop.line, pair.valueRange.stop.column + 1⟩,
          ⟨pair.valueRange.stop.line + 1, 1⟩⟩⟩ = true := by
      simp [Comments.commentAfterPair, hline]
    have hfind := find?_append_singleton _ _ _ hf1 hptok
    rw [happly]
    unfold Comments.reportHumanReadableComment Comments.getExistingComment
    rw [hfind]
    simp [htrim]
  · -- a bound comment exists: the fix replaces it with the canonical text
    have happly : Comments.applyCommentFix pair comments msg =
        comments.map (fun x => if x = c then
          ⟨msg ++ "\n", ⟨c.range.filename, c.range.start, ⟨c.range.start.line + 1, 1⟩⟩⟩
          else x) := by
      unfold Comments.applyCommentFix
      rw [hg]
    rw [happly]
    rcases hf1 : comments.find? (Comments.commentAfterPair pair) with _ | d
    · -- the comment was found on the previous line (second search)
      have hf2 : comments.find? (Comments.commentBeforePair pair) = some c := by
        unfold Comments.getExistingComment at hg
        rw [hf1] at hg
        exact hg
      have hpc2 : c.range.start.line = pair.keyRange.start.line - 1
          ∧ c.range.stop.line = pair.keyRange.start.line := by
        simpa [Comments.commentBeforePair] using List.find?_some hf2
      have hnone1 : ∀ x ∈ comments,
          Comments.commentAfterPair pair
            ((fun x => if x = c then
              (⟨msg ++ "\n", ⟨c.range.filename, c.range.start,
                ⟨c.range.start.line + 1, 1⟩⟩⟩ : CommentToken)
              else x) x) = false := by
        intro x hx
        apply Bool.eq_false_iff.mpr
        intro htrue
        by_cases hxc : x = c
        · have htrue' : Comments.commentAfterPair pair
              (⟨msg ++ "\n", ⟨c.range.filename, c.range.start,
                ⟨c.range.start.line + 1, 1⟩⟩⟩ : CommentToken) = true := by
            simpa [hxc] using htrue
          have hlines : c.range.start.line = pair.keyRange.start.line ∧
              pair.valueRange.stop.column < c.range.start.column := by
            simpa [Comments.commentAfterPair] using htrue'
          have h1 := hlines.1
          have h2 := hpc2.1
          omega
        · have htrue' : Comments.commentAfterPair pair x = true := by
            simpa [hxc] using htrue
          exact List.find?_eq_none.mp hf1 x hx htrue'
      have hfind1 := find?_map_eq_none _ _ _ hnone1
      have hpc2c' : Comments.commentBeforePair pair
          ⟨msg ++ "\n", ⟨c.range.filename, c.range.start,
            ⟨c.range.start.line + 1, 1⟩⟩⟩ = true := by
        simp only [Comments.commentBeforePair]
        have h2 := hpc2.1
        simp [h2]
        omega
      have hfind2 := find?_replace_first _ _ _ _ hf2 hpc2c'
      unfold Comments.reportHumanReadableComment Comments.getExistingComment
      rw [hfind1, hfind2]
      simp [htrim]
    · -- the comment was found on the key's line, after the value
      have hcd : d = c := by
        unfold Comments.getExistingComment at hg
        rw [hf1] at hg
        injection hg
      subst hcd
      have hp1d : Comments.commentAfterPair pair d = true := List.find?_some hf1
      have hp1d' : Comments.commentAfterPair pair
          ⟨msg ++ "\n", ⟨d.range.filename, d.range.start,
            ⟨d.range.start.line + 1, 1⟩⟩⟩ = true := by
        simpa [Comments.commentAfterPair] using hp1d
      have hfind1 := find?_replace_first _ _ _ _ hf1 hp1d'
      unfold Comments.reportHumanReadableComment Comments.getExistingComment
      rw [hfind1]
      simp [htrim]

/-- Witness for C6: a pair with no bound comment and the canonical
message for one day of retention. -/
theorem C6_witness :
    Comments.reportHumanReadableComment pairRetentionForComment
      (Comments.applyCommentFix pairRetentionForComment [] "# keep data for 1 day")
      retentionTimeAttr "# keep data for 1 day" = [] :=
  C6_comment_reconcile_idempotent pairRetentionForComment [] retentionTimeAttr
    "# keep data for 1 day" (by decide) (by decide) rfl (by decide)
